import Mathlib

/-!
Shallow embedding of `indra/belief/sklearn/wrapper.py`.

The module wraps an injected sklearn-style classifier with statement
preprocessing: `CountsModel.stmts_to_matrix` turns a list of statements
(each with a `type` and a list of evidence items carrying a `source_api`)
into a numeric matrix of per-source evidence counts, optionally extended
with a statement-type index column.  `SklearnBase.fit` validates the
record/label dimensions before encoding and forwarding to the wrapped
model.  Python exceptions are modelled with `Except`; the Python value
`NotImplementedError(...)` that the base `stmts_to_matrix` *returns*
(rather than raises) is modelled as an ordinary return value.
-/

deriving instance DecidableEq for Except

/-- An evidence item; only the `source_api` attribute is consumed. -/
structure Evidence where
  source_api : String
deriving DecidableEq, Repr

/-- A statement record; only the claim category (`type(stmt)` in Python,
here a string naming the class) and the evidence list are consumed. -/
structure Stmt where
  type : String
  evidence : List Evidence
deriving DecidableEq, Repr

/-- Default statement used with `List.getD`. -/
def dummyStmt : Stmt := ⟨"", []⟩

/-- A 2-D numeric matrix with an explicit column count, mirroring a numpy
array's shape (the column count of a 0-row `np.zeros((0, n))` is still `n`). -/
structure Mat where
  ncols : Nat
  rows : List (List Nat)
deriving DecidableEq, Repr

/-- `np.hstack`: concatenate two matrices horizontally. -/
def hstack (a b : Mat) : Mat :=
  ⟨a.ncols + b.ncols, (a.rows.zip b.rows).map (fun p => p.1 ++ p.2)⟩

/-- Errors raised during encoding: `KeyError(type(stmt))` from the
`stmt_type_map` lookup, and the `ValueError` raised when an evidence source
is outside `source_list` (carrying the exact message the code builds). -/
inductive EncodeErr where
  | unknownCategory (t : String)
  | configurationMismatch (msg : String)
deriving DecidableEq, Repr

/-- Python-dict lookup over an association list built by insertion order:
the last binding of a key wins, as in a dict comprehension. -/
def dictLookup (m : List (String × Nat)) (k : String) : Option Nat :=
  (m.reverse.find? (fun p => p.1 == k)).map (fun p => p.2)

/-- Configuration of `CountsModel` fixed by `__init__` (the wrapped model
object itself is opaque and omitted). -/
structure CountsModel where
  source_list : List String
  use_stmt_type : Bool
  use_num_members : Bool
  stmt_type_map : List (String × Nat)
deriving DecidableEq, Repr

/-- `CountsModel.__init__`: stores the flags and the source list and, when
`use_stmt_type` is set, builds `stmt_type_map = {t: ix for ix, t in
enumerate(all_stmt_types)}`.  `all_stmt_types` stands for the list returned
by `get_all_descendants(Statement)` (external to this module). -/
def CountsModel.init (source_list : List String) (use_stmt_type use_num_members : Bool)
    (all_stmt_types : List String) : CountsModel :=
  { source_list := source_list
    use_stmt_type := use_stmt_type
    use_num_members := use_num_members
    stmt_type_map :=
      if use_stmt_type then all_stmt_types.enum.map (fun p => (p.2, p.1)) else [] }

/-- First loop of `stmts_to_matrix`: collect the categorical feature rows.
With `use_stmt_type` the row is `[stmt_type_map[type(stmt)]]` and a missing
key raises `KeyError` at the first offending statement; without it the row
is empty and skipped (`if feature_row: cat_features.append(feature_row)`). -/
def collectCatFeatures (m : CountsModel) : List Stmt → Except EncodeErr (List (List Nat))
  | [] => .ok []
  | s :: rest =>
    if m.use_stmt_type then
      match dictLookup m.stmt_type_map s.type with
      | none => .error (.unknownCategory s.type)
      | some ix =>
        match collectCatFeatures m rest with
        | .error e => .error e
        | .ok rows => .ok ([ix] :: rows)
    else collectCatFeatures m rest

/-- All `source_api` values appearing in the statements' evidences (the
code accumulates them into the set `stmt_sources`; we keep the list, and
state the subset check over it). -/
def stmtSources (stmts : List Stmt) : List String :=
  stmts.flatMap (fun s => s.evidence.map Evidence.source_api)

/-- One row of the count block: `src_ctr.get(src, 0)` for each `src` in
`source_list`, i.e. the multiplicity of each vocabulary source among the
statement's evidence sources. -/
def countRow (source_list : List String) (s : Stmt) : List Nat :=
  source_list.map (fun src => (s.evidence.map Evidence.source_api).count src)

/-- `CountsModel.stmts_to_matrix`: collect categorical features (raising
`KeyError` on a type-map miss), check that all evidence sources are in
`source_list` (raising `ValueError` otherwise, with the code's literal
message — note the missing space from the Python string concatenation),
build the count block, and `hstack` the categorical block when non-empty. -/
def CountsModel.stmts_to_matrix (m : CountsModel) (stmts : List Stmt) : Except EncodeErr Mat :=
  match collectCatFeatures m stmts with
  | .error e => .error e
  | .ok cat_features =>
    if ¬ (∀ s ∈ stmtSources stmts, s ∈ m.source_list) then
      .error (.configurationMismatch
        "source_list must include all source_apisin the statement data.")
    else
      let x_arr : Mat := ⟨m.source_list.length, stmts.map (countRow m.source_list)⟩
      if cat_features.isEmpty then .ok x_arr
      else .ok (hstack x_arr ⟨(cat_features.headD []).length, cat_features⟩)

/-- Errors raised by `SklearnBase.fit`: the dimension-check `ValueError`
(with its literal message) or an error propagated from encoding. -/
inductive FitErr where
  | dimensionMismatch (msg : String)
  | encodeErr (e : EncodeErr)
deriving DecidableEq, Repr

/-- `SklearnBase.fit`: check `len(stmts) == len(y_arr)` first, then call
`self.stmts_to_matrix` (the dynamically dispatched encoder, passed here as
a function), then forward `(x_arr, y_arr)` to `self.model.fit`.  The `ok`
payload is exactly what reaches the wrapped model's `fit`; an `error`
result means nothing was forwarded. -/
def SklearnBase.fit {α : Type} (encode : List Stmt → Except EncodeErr Mat)
    (stmts : List Stmt) (y_arr : List α) : Except FitErr (Mat × List α) :=
  if stmts.length ≠ y_arr.length then
    .error (.dimensionMismatch "Number of stmts must match length of y_arr.")
  else
    match encode stmts with
    | .error e => .error (.encodeErr e)
    | .ok x_arr => .ok (x_arr, y_arr)

/-- What a call to the base `stmts_to_matrix` can evaluate to: a matrix, or
the `NotImplementedError` exception *object* used as a plain value. -/
inductive BaseMatrixValue where
  | matrix (x : Mat)
  | notImplementedErrorValue (msg : String)
deriving DecidableEq, Repr

/-- `SklearnBase.stmts_to_matrix`: the body is
`return NotImplementedError('Need to implement the stmts_to_matrix method')`
— a normal return of the exception object (`.ok`), not a raise (`.error`). -/
def SklearnBase.stmts_to_matrix (_stmts : List Stmt) : Except EncodeErr BaseMatrixValue :=
  .ok (.notImplementedErrorValue "Need to implement the stmts_to_matrix method")

/-! ### General list lemmas -/

theorem getD_map_of_lt {α β : Type} (f : α → β) (L : List α) (j : Nat) (hj : j < L.length)
    (d : β) (d' : α) : (L.map f).getD j d = f (L.getD j d') := by
  simp [List.getD_eq_getElem?_getD, List.getElem?_map, List.getElem?_eq_getElem, hj,
    List.getD_eq_getElem, List.getElem_map]

theorem sum_map_indicator (x : String) (L : List String) :
    (L.map (fun s => if x = s then 1 else 0)).sum = L.count x := by
  induction L with
  | nil => simp
  | cons a L ih =>
    by_cases h : x = a
    · subst h
      simp [List.count_cons, ih]
      omega
    · simp [List.count_cons, ih, h, Ne.symm h]

theorem sum_map_add_distrib {α : Type} (L : List α) (f g : α → Nat) :
    (L.map (fun s => f s + g s)).sum = (L.map f).sum + (L.map g).sum := by
  induction L with
  | nil => simp
  | cons a L ih =>
    simp [ih]
    omega

/-- Summing, over a duplicate-free list `L` covering all elements of `xs`,
the multiplicity of each element of `L` in `xs`, yields the length of `xs`. -/
theorem sum_counts_eq_length (xs : List String) : ∀ L : List String, L.Nodup →
    (∀ x ∈ xs, x ∈ L) → (L.map (fun s => xs.count s)).sum = xs.length := by
  induction xs with
  | nil => intro L _ _; simp
  | cons x xs ih =>
    intro L hnd hsub
    have hmap : L.map (fun s => (x :: xs).count s)
        = L.map (fun s => xs.count s + if x = s then 1 else 0) :=
      List.map_congr_left (fun s _ => by simp [List.count_cons])
    rw [hmap, sum_map_add_distrib, ih L hnd (fun y hy => hsub y (List.mem_cons_of_mem _ hy)),
      sum_map_indicator, List.count_eq_one_of_mem hnd (hsub x (List.mem_cons_self x xs))]
    simp

/-! ### Behaviour of the categorical-feature loop -/

theorem collectCatFeatures_no_type (m : CountsModel) (h : m.use_stmt_type = false) :
    ∀ stmts, collectCatFeatures m stmts = .ok [] := by
  intro stmts
  induction stmts with
  | nil => rfl
  | cons s rest ih => simp [collectCatFeatures, h, ih]

theorem collectCatFeatures_all_found (m : CountsModel) (h : m.use_stmt_type = true) :
    ∀ stmts, (∀ s ∈ stmts, (dictLookup m.stmt_type_map s.type).isSome) →
      collectCatFeatures m stmts
        = .ok (stmts.map (fun s => [(dictLookup m.stmt_type_map s.type).getD 0])) := by
  intro stmts
  induction stmts with
  | nil => intro _; rfl
  | cons s rest ih =>
    intro hall
    obtain ⟨ix, hix⟩ := Option.isSome_iff_exists.mp (hall s (List.mem_cons_self s rest))
    have hrest := ih (fun t ht => hall t (List.mem_cons_of_mem _ ht))
    simp [collectCatFeatures, h, hix, hrest]

theorem collectCatFeatures_missing (m : CountsModel) (h : m.use_stmt_type = true) :
    ∀ stmts, (∃ s ∈ stmts, dictLookup m.stmt_type_map s.type = none) →
      ∃ t, collectCatFeatures m stmts = .error (.unknownCategory t) := by
  intro stmts
  induction stmts with
  | nil => rintro ⟨s, hs, -⟩; cases hs
  | cons s rest ih =>
    rintro ⟨s', hs', hnone⟩
    by_cases h0 : dictLookup m.stmt_type_map s.type = none
    · exact ⟨s.type, by simp [collectCatFeatures, h, h0]⟩
    · obtain ⟨ix, hix⟩ := Option.ne_none_iff_exists'.mp h0
      have hs'rest : s' ∈ rest := by
        rcases List.mem_cons.mp hs' with h1 | h1
        · exact absurd (h1 ▸ hnone) h0
        · exact h1
      obtain ⟨t, ht⟩ := ih ⟨s', hs'rest, hnone⟩
      exact ⟨t, by simp [collectCatFeatures, h, hix, ht]⟩

theorem collectCatFeatures_ok_all_found (m : CountsModel) (h : m.use_stmt_type = true)
    (stmts : List Stmt) (cat : List (List Nat))
    (hok : collectCatFeatures m stmts = .ok cat) :
    ∀ s ∈ stmts, (dictLookup m.stmt_type_map s.type).isSome := by
  intro s hs
  by_contra hno
  rw [Option.not_isSome_iff_eq_none] at hno
  obtain ⟨t, ht⟩ := collectCatFeatures_missing m h stmts ⟨s, hs, hno⟩
  rw [hok] at ht
  cases ht

/-! ### Characterisations of `stmts_to_matrix` -/

theorem stmts_to_matrix_nil (m : CountsModel) :
    m.stmts_to_matrix [] = .ok ⟨m.source_list.length, []⟩ := by
  simp [CountsModel.stmts_to_matrix, collectCatFeatures, stmtSources]

theorem stmts_to_matrix_no_type (m : CountsModel) (h : m.use_stmt_type = false)
    (stmts : List Stmt) (hsub : ∀ s ∈ stmtSources stmts, s ∈ m.source_list) :
    m.stmts_to_matrix stmts
      = .ok ⟨m.source_list.length, stmts.map (countRow m.source_list)⟩ := by
  rw [CountsModel.stmts_to_matrix, collectCatFeatures_no_type m h]
  simp [not_not_intro hsub]

theorem stmts_to_matrix_with_type (m : CountsModel) (h : m.use_stmt_type = true)
    (stmts : List Stmt)
    (hall : ∀ s ∈ stmts, (dictLookup m.stmt_type_map s.type).isSome)
    (hsub : ∀ s ∈ stmtSources stmts, s ∈ m.source_list) (hne : stmts ≠ []) :
    m.stmts_to_matrix stmts
      = .ok ⟨m.source_list.length + 1,
          stmts.map (fun s => countRow m.source_list s
            ++ [(dictLookup m.stmt_type_map s.type).getD 0])⟩ := by
  obtain ⟨s0, rest, rfl⟩ := List.exists_cons_of_ne_nil hne
  rw [CountsModel.stmts_to_matrix, collectCatFeatures_all_found m h _ hall]
  simp [not_not_intro hsub, hstack, List.zip_map', List.map_map, Function.comp_def]

theorem stmts_to_matrix_ok_subset (m : CountsModel) (stmts : List Stmt) (M : Mat)
    (hok : m.stmts_to_matrix stmts = .ok M) :
    ∀ s ∈ stmtSources stmts, s ∈ m.source_list := by
  by_contra hno
  rw [CountsModel.stmts_to_matrix] at hok
  cases hcol : collectCatFeatures m stmts with
  | error e => rw [hcol] at hok; cases hok
  | ok cat => rw [hcol] at hok; simp [hno] at hok

theorem stmts_to_matrix_ok_types (m : CountsModel) (stmts : List Stmt) (M : Mat)
    (h : m.use_stmt_type = true) (hok : m.stmts_to_matrix stmts = .ok M) :
    ∀ s ∈ stmts, (dictLookup m.stmt_type_map s.type).isSome := by
  cases hcol : collectCatFeatures m stmts with
  | error e => rw [CountsModel.stmts_to_matrix, hcol] at hok; cases hok
  | ok cat => exact collectCatFeatures_ok_all_found m h stmts cat hcol

/-- Row `i` of a successfully encoded matrix: the count row for the `i`-th
statement, followed by the type-index entry when `use_stmt_type` is set. -/
theorem stmts_to_matrix_ok_row (m : CountsModel) (stmts : List Stmt) (M : Mat)
    (hok : m.stmts_to_matrix stmts = .ok M) (i : Nat) (hi : i < stmts.length) :
    M.rows.getD i []
      = countRow m.source_list (stmts.getD i dummyStmt)
        ++ (if m.use_stmt_type
            then [(dictLookup m.stmt_type_map (stmts.getD i dummyStmt).type).getD 0]
            else []) := by
  have hsub := stmts_to_matrix_ok_subset m stmts M hok
  cases hty : m.use_stmt_type with
  | false =>
    rw [stmts_to_matrix_no_type m hty stmts hsub] at hok
    have hM := Except.ok.inj hok
    subst hM
    rw [getD_map_of_lt (countRow m.source_list) stmts i hi [] dummyStmt]
    simp
  | true =>
    have hall := stmts_to_matrix_ok_types m stmts M hty hok
    have hne : stmts ≠ [] := by rintro rfl; cases hi
    rw [stmts_to_matrix_with_type m hty stmts hall hsub hne] at hok
    have hM := Except.ok.inj hok
    subst hM
    rw [getD_map_of_lt _ stmts i hi [] dummyStmt]
    simp

/-- C1: for records whose evidence sources all belong to the configured
source vocabulary, entry `(i, j)` of the count block of a successful
encoding is the number of occurrences of the `j`-th vocabulary source among
record `i`'s evidence items (zero when absent, since the count of a missing
element is zero). -/
theorem C1_count_block (m : CountsModel) (stmts : List Stmt) (M : Mat)
    (_hsub : ∀ s ∈ stmtSources stmts, s ∈ m.source_list)
    (hok : m.stmts_to_matrix stmts = .ok M)
    (i j : Nat) (hi : i < stmts.length) (hj : j < m.source_list.length) :
    (M.rows.getD i []).getD j 0
      = ((stmts.getD i dummyStmt).evidence.map Evidence.source_api).count
          (m.source_list.getD j "") := by
  rw [stmts_to_matrix_ok_row m stmts M hok i hi]
  have h1 : (countRow m.source_list (stmts.getD i dummyStmt)).length = m.source_list.length := by
    simp [countRow]
  rw [List.getD_eq_getElem?_getD, List.getElem?_append_left (by rw [h1]; exact hj),
    ← List.getD_eq_getElem?_getD]
  simp only [countRow]
  rw [getD_map_of_lt _ m.source_list j hj 0 ""]

/-- C1 witness: the spec's first worked example (vocabulary
`["reach", "sparser"]`, one record with evidence `reach, reach, sparser`,
no type feature) has `2` at entry `(0, 0)`. -/
theorem C1_count_block_witness :
    ((Mat.rows ⟨2, [[2, 1]]⟩).getD 0 []).getD 0 0
      = ((([⟨"T", [⟨"reach"⟩, ⟨"reach"⟩, ⟨"sparser"⟩]⟩] : List Stmt).getD 0 dummyStmt).evidence.map
          Evidence.source_api).count ((["reach", "sparser"] : List String).getD 0 "") :=
  C1_count_block (CountsModel.init ["reach", "sparser"] false false [])
    [⟨"T", [⟨"reach"⟩, ⟨"reach"⟩, ⟨"sparser"⟩]⟩] ⟨2, [[2, 1]]⟩
    (by decide) (by decide) 0 0 (by decide) (by decide)

/-- C2 counterexample: with the statement-type feature enabled, encoding the
empty record sequence succeeds with `len(vocabulary)` columns, not
`len(vocabulary) + 1` — no type column is stacked when no categorical
feature row was collected. -/
theorem C2_counterexample :
    (CountsModel.init ["reach"] true false ["TypeA"]).stmts_to_matrix [] = .ok ⟨1, []⟩
      ∧ Mat.ncols ⟨1, []⟩ ≠ (["reach"] : List String).length + 1 :=
  ⟨by decide, by decide⟩

/-- C2 (amended): for record sequences whose evidence sources are a subset
of the vocabulary and, when the type feature is enabled, whose categories
are all in the type vocabulary, encoding succeeds with `len(records)` rows
and `len(vocabulary)` columns, plus one additional column when the type
feature is enabled and the sequence is non-empty. -/
theorem C2_matrix_shape (m : CountsModel) (stmts : List Stmt)
    (hsub : ∀ s ∈ stmtSources stmts, s ∈ m.source_list)
    (hcat : m.use_stmt_type = true →
      ∀ s ∈ stmts, (dictLookup m.stmt_type_map s.type).isSome) :
    ∃ M, m.stmts_to_matrix stmts = .ok M ∧ M.rows.length = stmts.length
      ∧ M.ncols = m.source_list.length
          + (if m.use_stmt_type = true ∧ stmts ≠ [] then 1 else 0) := by
  cases hty : m.use_stmt_type with
  | false =>
    exact ⟨_, stmts_to_matrix_no_type m hty stmts hsub, by simp, by simp [hty]⟩
  | true =>
    rcases eq_or_ne stmts [] with rfl | hne
    · exact ⟨_, stmts_to_matrix_nil m, by simp, by simp⟩
    · exact ⟨_, stmts_to_matrix_with_type m hty stmts (hcat hty) hsub hne, by simp,
        by simp [hty, hne]⟩

/-- C2 witness: the amended shape statement at the spec's second worked
example (two-source vocabulary, type feature on, one record). -/
theorem C2_matrix_shape_witness :
    ∃ M, (CountsModel.init ["reach", "sparser"] true false ["TypeA", "TypeB"]).stmts_to_matrix
        [⟨"TypeB", [⟨"sparser"⟩]⟩] = .ok M
      ∧ M.rows.length = ([⟨"TypeB", [⟨"sparser"⟩]⟩] : List Stmt).length
      ∧ M.ncols = (["reach", "sparser"] : List String).length
          + (if (CountsModel.init ["reach", "sparser"] true false
                  ["TypeA", "TypeB"]).use_stmt_type = true
                ∧ ([⟨"TypeB", [⟨"sparser"⟩]⟩] : List Stmt) ≠ [] then 1 else 0) :=
  C2_matrix_shape (CountsModel.init ["reach", "sparser"] true false ["TypeA", "TypeB"])
    [⟨"TypeB", [⟨"sparser"⟩]⟩] (by decide) (by decide)

/-- C3: in a successfully encoded sequence with a duplicate-free vocabulary
containing all evidence sources, the sum of a row's count columns equals
the number of evidence items of that record. -/
theorem C3_row_sum (m : CountsModel) (stmts : List Stmt) (M : Mat)
    (hnd : m.source_list.Nodup)
    (hsub : ∀ s ∈ stmtSources stmts, s ∈ m.source_list)
    (hok : m.stmts_to_matrix stmts = .ok M)
    (i : Nat) (hi : i < stmts.length) :
    ((M.rows.getD i []).take m.source_list.length).sum
      = (stmts.getD i dummyStmt).evidence.length := by
  rw [stmts_to_matrix_ok_row m stmts M hok i hi]
  have h1 : (countRow m.source_list (stmts.getD i dummyStmt)).length = m.source_list.length := by
    simp [countRow]
  rw [← h1, List.take_left]
  have hmem : stmts.getD i dummyStmt ∈ stmts := by
    rw [List.getD_eq_getElem stmts dummyStmt hi]
    exact List.getElem_mem hi
  have hsub_i : ∀ x ∈ (stmts.getD i dummyStmt).evidence.map Evidence.source_api,
      x ∈ m.source_list := by
    intro x hx
    refine hsub x ?_
    simp only [stmtSources]
    exact List.mem_flatMap.mpr ⟨_, hmem, hx⟩
  simp only [countRow]
  rw [sum_counts_eq_length _ _ hnd hsub_i]
  simp

/-- C3 witness: in the spec's first worked example the single row sums to
the three evidence items of the record. -/
theorem C3_row_sum_witness :
    ((Mat.rows ⟨2, [[2, 1]]⟩ |>.getD 0 []).take
        (["reach", "sparser"] : List String).length).sum
      = (([⟨"T", [⟨"reach"⟩, ⟨"reach"⟩, ⟨"sparser"⟩]⟩] : List Stmt).getD 0
          dummyStmt).evidence.length :=
  C3_row_sum (CountsModel.init ["reach", "sparser"] false false [])
    [⟨"T", [⟨"reach"⟩, ⟨"reach"⟩, ⟨"sparser"⟩]⟩] ⟨2, [[2, 1]]⟩
    (by decide) (by decide) (by decide) 0 (by decide)

/-- C4 counterexample: the `ConfigurationMismatch` error does not identify
the offending identifiers — two inputs with different out-of-vocabulary
sources produce the identical fixed-message error — and when a record with
an unknown category is also present, encoding fails with the
unknown-category error instead of `ConfigurationMismatch`. -/
theorem C4_counterexample :
    (CountsModel.init ["reach"] false false []).stmts_to_matrix
        [⟨"T", [⟨"unknown_source"⟩]⟩]
      = .error (.configurationMismatch
          "source_list must include all source_apisin the statement data.")
    ∧ (CountsModel.init ["reach"] false false []).stmts_to_matrix
        [⟨"T", [⟨"other_bad_source"⟩]⟩]
      = .error (.configurationMismatch
          "source_list must include all source_apisin the statement data.")
    ∧ (CountsModel.init ["reach"] true false ["TypeA"]).stmts_to_matrix
        [⟨"TypeB", [⟨"unknown_source"⟩]⟩]
      = .error (.unknownCategory "TypeB") :=
  ⟨by decide, by decide, by decide⟩

/-- C4 (amended): when no unknown-category failure precedes (the type
feature is off, or every record's category is in the type vocabulary), an
evidence source outside the vocabulary makes encoding fail with the
`ConfigurationMismatch` error carrying the code's fixed message; no matrix
is returned and the vocabulary is left as configured. -/
theorem C4_configuration_mismatch (m : CountsModel) (stmts : List Stmt)
    (hcat : m.use_stmt_type = true →
      ∀ s ∈ stmts, (dictLookup m.stmt_type_map s.type).isSome)
    (hbad : ∃ s ∈ stmts, ∃ ev ∈ s.evidence, ev.source_api ∉ m.source_list) :
    m.stmts_to_matrix stmts
      = .error (.configurationMismatch
          "source_list must include all source_apisin the statement data.") := by
  have hno : ¬ (∀ s ∈ stmtSources stmts, s ∈ m.source_list) := by
    obtain ⟨s, hs, ev, hev, hnotin⟩ := hbad
    intro hforall
    refine hnotin (hforall ev.source_api ?_)
    simp only [stmtSources]
    exact List.mem_flatMap.mpr ⟨s, hs, List.mem_map.mpr ⟨ev, hev, rfl⟩⟩
  cases hty : m.use_stmt_type with
  | false =>
    rw [CountsModel.stmts_to_matrix, collectCatFeatures_no_type m hty]
    simp [hno]
  | true =>
    rw [CountsModel.stmts_to_matrix, collectCatFeatures_all_found m hty stmts (hcat hty)]
    simp [hno]

/-- C4 witness: the spec's third worked example — vocabulary `["reach"]`,
one record with evidence source `"unknown_source"` — fails with the
fixed-message `ConfigurationMismatch` error. -/
theorem C4_configuration_mismatch_witness :
    (CountsModel.init ["reach"] false false []).stmts_to_matrix
        [⟨"T", [⟨"unknown_source"⟩]⟩]
      = .error (.configurationMismatch
          "source_list must include all source_apisin the statement data.") :=
  C4_configuration_mismatch (CountsModel.init ["reach"] false false [])
    [⟨"T", [⟨"unknown_source"⟩]⟩] (by decide) (by decide)

/-- The entry just past a list of length `n` in `a ++ [x]` is `x`. -/
theorem getD_append_singleton (a : List Nat) (x : Nat) (n : Nat) (h : a.length = n) :
    (a ++ [x]).getD n 0 = x := by
  subst h
  rw [List.getD_eq_getElem?_getD, List.getElem?_append_right le_rfl]
  simp

/-- C5: with the statement-type feature enabled, each row of a successful
encoding has exactly one extra final column holding the dense index that
the type vocabulary assigns to the record's category, and a record whose
category is absent from the type vocabulary makes encoding fail with the
unknown-category error. -/
theorem C5_type_column (m : CountsModel) (stmts : List Stmt)
    (hty : m.use_stmt_type = true) :
    (∀ M i, m.stmts_to_matrix stmts = .ok M → i < stmts.length →
      (M.rows.getD i []).length = m.source_list.length + 1
        ∧ ∃ ix, dictLookup m.stmt_type_map (stmts.getD i dummyStmt).type = some ix
            ∧ (M.rows.getD i []).getD m.source_list.length 0 = ix)
    ∧ (∀ s ∈ stmts, dictLookup m.stmt_type_map s.type = none →
        ∃ t, m.stmts_to_matrix stmts = .error (.unknownCategory t)) := by
  constructor
  · intro M i hok hi
    have hrow := stmts_to_matrix_ok_row m stmts M hok i hi
    have hall := stmts_to_matrix_ok_types m stmts M hty hok
    have hmem : stmts.getD i dummyStmt ∈ stmts := by
      rw [List.getD_eq_getElem stmts dummyStmt hi]
      exact List.getElem_mem hi
    obtain ⟨ix, hix⟩ := Option.isSome_iff_exists.mp (hall _ hmem)
    have h1 : (countRow m.source_list (stmts.getD i dummyStmt)).length
        = m.source_list.length := by
      simp [countRow]
    have hrow' : M.rows.getD i []
        = countRow m.source_list (stmts.getD i dummyStmt) ++ [ix] := by
      rw [hrow, hty, if_pos rfl, hix]
      rfl
    refine ⟨?_, ix, hix, ?_⟩
    · rw [hrow', List.length_append, h1]
      rfl
    · rw [hrow']
      exact getD_append_singleton _ ix _ h1
  · intro s hs hnone
    obtain ⟨t, ht⟩ := collectCatFeatures_missing m hty stmts ⟨s, hs, hnone⟩
    exact ⟨t, by rw [CountsModel.stmts_to_matrix, ht]⟩

/-- C5 witness: the spec's second worked example — type vocabulary
`{TypeA: 0, TypeB: 1}`, one `TypeB` record with evidence `["sparser"]` —
yields the row `[0, 1, 1]`, whose final entry is the index `1` of `TypeB`. -/
theorem C5_type_column_witness :
    ((Mat.rows ⟨3, [[0, 1, 1]]⟩).getD 0 []).length
        = (["reach", "sparser"] : List String).length + 1
      ∧ ∃ ix, dictLookup
            (CountsModel.init ["reach", "sparser"] true false
              ["TypeA", "TypeB"]).stmt_type_map
            (([⟨"TypeB", [⟨"sparser"⟩]⟩] : List Stmt).getD 0 dummyStmt).type = some ix
          ∧ ((Mat.rows ⟨3, [[0, 1, 1]]⟩).getD 0 []).getD
              (["reach", "sparser"] : List String).length 0 = ix :=
  (C5_type_column (CountsModel.init ["reach", "sparser"] true false ["TypeA", "TypeB"])
    [⟨"TypeB", [⟨"sparser"⟩]⟩] rfl).1 ⟨3, [[0, 1, 1]]⟩ 0 (by decide) (by decide)

/-- C6: `fit` on record and label sequences of unequal length fails with
the `DimensionMismatch` error for *every* encoder function — the result
does not depend on the encoder, so the failure happens before any encoding
— and the `error` result means nothing is forwarded to the wrapped
estimator (the `ok` payload is exactly what would be forwarded). -/
theorem C6_fit_dimension_mismatch {α : Type} (encode : List Stmt → Except EncodeErr Mat)
    (stmts : List Stmt) (y_arr : List α) (h : stmts.length ≠ y_arr.length) :
    SklearnBase.fit encode stmts y_arr
      = .error (.dimensionMismatch "Number of stmts must match length of y_arr.") := by
  rw [SklearnBase.fit, if_pos h]

/-- C6 witness: zero records against one label fails with
`DimensionMismatch`, under an arbitrary concrete encoder. -/
theorem C6_fit_dimension_mismatch_witness :
    SklearnBase.fit (fun _ => .ok ⟨0, []⟩) [] ([3] : List Int)
      = .error (.dimensionMismatch "Number of stmts must match length of y_arr.") :=
  C6_fit_dimension_mismatch (fun _ => .ok ⟨0, []⟩) [] [3] (by decide)

/-- C7 (code bug evidence): the base `stmts_to_matrix` does not signal a
failure — for every input it *returns normally* (`.ok`), yielding the
`NotImplementedError` exception object as an ordinary value, which the base
`fit` would then forward onward instead of aborting. -/
theorem C7_base_returns_error_object (stmts : List Stmt) :
    SklearnBase.stmts_to_matrix stmts
      = .ok (.notImplementedErrorValue "Need to implement the stmts_to_matrix method") :=
  rfl

/-- C8: the `use_num_members` flag has no effect on the encoding — for any
fixed setting of the other configuration options, both settings of the flag
produce identical matrices (the flag is never read by `stmts_to_matrix`). -/
theorem C8_num_members_no_effect (source_list : List String) (use_stmt_type : Bool)
    (all_stmt_types : List String) (b1 b2 : Bool) (stmts : List Stmt) :
    (CountsModel.init source_list use_stmt_type b1 all_stmt_types).stmts_to_matrix stmts
      = (CountsModel.init source_list use_stmt_type b2 all_stmt_types).stmts_to_matrix
          stmts := by
  have hcol : ∀ l, collectCatFeatures
        (CountsModel.init source_list use_stmt_type b1 all_stmt_types) l
      = collectCatFeatures (CountsModel.init source_list use_stmt_type b2 all_stmt_types) l := by
    intro l
    induction l with
    | nil => rfl
    | cons s rest ih =>
      simp only [collectCatFeatures, ih]
      rfl
  rw [CountsModel.stmts_to_matrix, CountsModel.stmts_to_matrix, hcol]
  rfl

/-- C9: encoding the empty record sequence succeeds with a 0-row matrix of
exactly `len(source_list)` columns, for every configuration — in
particular no type column is ever stacked onto an empty input, because the
categorical block is only stacked when a categorical feature row exists. -/
theorem C9_empty_encoding (m : CountsModel) :
    m.stmts_to_matrix [] = .ok ⟨m.source_list.length, []⟩ := by
  rw [CountsModel.stmts_to_matrix]
  simp [collectCatFeatures, stmtSources]

/-- C10: with the type feature enabled, the category lookup of the first
loop precedes the source-vocabulary check: an input containing both a
record with an unknown category and an out-of-vocabulary evidence source
fails with the unknown-category error and never with the
configuration-mismatch error. -/
theorem C10_category_lookup_first (m : CountsModel) (stmts : List Stmt)
    (hty : m.use_stmt_type = true)
    (hmiss : ∃ s ∈ stmts, dictLookup m.stmt_type_map s.type = none)
    (_hbad : ∃ s ∈ stmts, ∃ ev ∈ s.evidence, ev.source_api ∉ m.source_list) :
    (∃ t, m.stmts_to_matrix stmts = .error (.unknownCategory t))
      ∧ ∀ msg, m.stmts_to_matrix stmts ≠ .error (.configurationMismatch msg) := by
  obtain ⟨t, ht⟩ := collectCatFeatures_missing m hty stmts hmiss
  have henc : m.stmts_to_matrix stmts = .error (.unknownCategory t) := by
    rw [CountsModel.stmts_to_matrix, ht]
  refine ⟨⟨t, henc⟩, ?_⟩
  intro msg hcontra
  rw [henc] at hcontra
  simp at hcontra

/-- C10 witness: a record of unknown category `TypeB` with the
out-of-vocabulary source `unknown_source` fails with the unknown-category
error, not with the configuration-mismatch error. -/
theorem C10_category_lookup_first_witness :
    (∃ t, (CountsModel.init ["reach"] true false ["TypeA"]).stmts_to_matrix
        [⟨"TypeB", [⟨"unknown_source"⟩]⟩] = .error (.unknownCategory t))
      ∧ ∀ msg, (CountsModel.init ["reach"] true false ["TypeA"]).stmts_to_matrix
          [⟨"TypeB", [⟨"unknown_source"⟩]⟩] ≠ .error (.configurationMismatch msg) :=
  C10_category_lookup_first (CountsModel.init ["reach"] true false ["TypeA"])
    [⟨"TypeB", [⟨"unknown_source"⟩]⟩] rfl (by decide) (by decide)
